import Mathlib

/-!
Verification of the Gemini proxy service (src/app.py and
src/gemini_proxy_service.py) against its natural-language specification.

Strings from the Python source are modelled as `List Char`; optional values
(Python `None`) as `Option`; dictionaries returned by the service as a
structure with `Option` fields.  The upstream Vertex AI client is modelled
as a black-box function from (prompt, model) to an outcome, with the
provider's exception classes as a disjoint sum (Python's `except` clauses
catch the most specific class first, so each raised exception falls in
exactly one category).  ASCII case folding and the ASCII whitespace set
stand in for Python's Unicode-aware `str.lower` / `str.strip`; every
message inspected by the claims is ASCII.
-/

namespace GeminiProxy

/-- ASCII whitespace, the characters Python's `str.strip()` removes on
ASCII text: space, tab, newline, carriage return, vertical tab, form feed. -/
def isPySpace (c : Char) : Bool :=
  c = ' ' || c = '\t' || c = '\n' || c = '\r' || c = Char.ofNat 11 || c = Char.ofNat 12

/-- Python `s.strip()`: drop leading and trailing whitespace. -/
def strip (s : List Char) : List Char :=
  (((s.dropWhile isPySpace).reverse).dropWhile isPySpace).reverse

/-- Python `s.lower()` on ASCII text. -/
def lower (s : List Char) : List Char :=
  s.map Char.toLower

/-- Python `needle in hay` substring test on strings. -/
def containsSub (needle : List Char) : List Char → Bool
  | [] => needle.isEmpty
  | c :: t => needle.isPrefixOf (c :: t) || containsSub needle t

/-- Python `x or d` for an optional string `x`: `d` when `x` is `None` or
empty, otherwise `x`. -/
def pyOrOpt (v : Option (List Char)) (d : List Char) : List Char :=
  match v with
  | none => d
  | some s => if s.isEmpty then d else s

/-- Truthiness of `os.getenv(...)`: false for an unset variable (`None`)
and for the empty string. -/
def envTruthy (v : Option (List Char)) : Bool :=
  match v with
  | none => false
  | some s => !s.isEmpty

/-- gemini_proxy_service.py line 24. -/
def MAX_PROMPT_LENGTH : Nat := 10000

/-- gemini_proxy_service.py line 25. -/
def DEFAULT_MODEL : List Char := "gemini-2.0-flash-exp".data

namespace ErrorCodes

def AUTH_ERROR : List Char := "AUTH_ERROR".data

def CREDENTIALS_ERROR : List Char := "CREDENTIALS_ERROR".data

def PERMISSION_DENIED : List Char := "PERMISSION_DENIED".data

def BILLING_DISABLED : List Char := "BILLING_DISABLED".data

def VALIDATION_ERROR : List Char := "VALIDATION_ERROR".data

def CONTENT_SAFETY_ERROR : List Char := "CONTENT_SAFETY_ERROR".data

def MODEL_NOT_FOUND : List Char := "MODEL_NOT_FOUND".data

def QUOTA_ERROR : List Char := "QUOTA_ERROR".data

def RATE_LIMIT_ERROR : List Char := "RATE_LIMIT_ERROR".data

def TIMEOUT_ERROR : List Char := "TIMEOUT_ERROR".data

def NETWORK_ERROR : List Char := "NETWORK_ERROR".data

def SERVICE_UNAVAILABLE : List Char := "SERVICE_UNAVAILABLE".data

def CONFIG_ERROR : List Char := "CONFIG_ERROR".data

def API_ERROR : List Char := "API_ERROR".data

def INTERNAL_ERROR : List Char := "INTERNAL_ERROR".data

end ErrorCodes

/-- gemini_proxy_service.py lines 28-44: the static error-code-to-HTTP-status
table, kept in dictionary (association list) form as in the source. -/
def ERROR_HTTP_STATUS : List (List Char × Nat) :=
  [(ErrorCodes.AUTH_ERROR, 401),
   (ErrorCodes.CREDENTIALS_ERROR, 401),
   (ErrorCodes.PERMISSION_DENIED, 403),
   (ErrorCodes.BILLING_DISABLED, 403),
   (ErrorCodes.VALIDATION_ERROR, 400),
   (ErrorCodes.CONTENT_SAFETY_ERROR, 400),
   (ErrorCodes.MODEL_NOT_FOUND, 404),
   (ErrorCodes.QUOTA_ERROR, 429),
   (ErrorCodes.RATE_LIMIT_ERROR, 429),
   (ErrorCodes.TIMEOUT_ERROR, 504),
   (ErrorCodes.NETWORK_ERROR, 502),
   (ErrorCodes.SERVICE_UNAVAILABLE, 503),
   (ErrorCodes.CONFIG_ERROR, 500),
   (ErrorCodes.API_ERROR, 500),
   (ErrorCodes.INTERNAL_ERROR, 500)]

/-- Dictionary lookup in `ERROR_HTTP_STATUS`. -/
def lookupHttpStatus (code : List Char) : Option Nat :=
  ERROR_HTTP_STATUS.lookup code

/-- Process environment and exogenous startup outcome.
`vertex_init_raises` is the behaviour of the `vertexai.init` call at module
load (line 57): `none` when it returns normally, `some m` when it raises an
exception whose `str` is `m`. -/
structure Config where
  google_cloud_project : Option (List Char)
  google_cloud_location : Option (List Char)
  vertex_init_raises : Option (List Char)

/-- The module-level globals `_vertex_ai_initialized` / `_vertex_ai_init_error`
(gemini_proxy_service.py lines 47-48), written once at module load. -/
structure InitState where
  initialized : Bool
  init_error : Option (List Char)

/-- Message of the `ValueError` raised at line 55 when the project variable
is missing, captured into `_vertex_ai_init_error` via `str(e)`. -/
def msgProjectEnvRequired : List Char :=
  "GOOGLE_CLOUD_PROJECT environment variable is required".data

/-- gemini_proxy_service.py lines 50-63: one-time module-load initialization.
`if not project: raise ValueError(...)`, then `vertexai.init(...)`; any
exception is captured as `str(e)` into `_vertex_ai_init_error`. -/
def moduleInit (cfg : Config) : InitState :=
  if !envTruthy cfg.google_cloud_project then
    ⟨false, some msgProjectEnvRequired⟩
  else
    match cfg.vertex_init_raises with
    | none => ⟨true, none⟩
    | some m => ⟨false, some m⟩

/-- The provider's exception classes caught in gemini_proxy_service.py
lines 178-304, each carrying `str(e)`.  `googleAPIError` is a
`GoogleAPIError` that is none of the more specific classes (Python tries
the `except` clauses in order); `otherException` is any non-Google
exception reaching the final catch-all. -/
inductive RawFailure where
  | resourceExhausted : List Char → RawFailure
  | invalidArgument : List Char → RawFailure
  | deadlineExceeded : List Char → RawFailure
  | serviceUnavailable : List Char → RawFailure
  | unauthenticated : List Char → RawFailure
  | permissionDenied : List Char → RawFailure
  | googleAPIError : List Char → RawFailure
  | otherException : List Char → RawFailure

/-- Outcome of one `model.generate_content` call: the response text
(`response.text`) on transport success, or a raised exception. -/
inductive UpstreamOutcome where
  | success : List Char → UpstreamOutcome
  | failure : RawFailure → UpstreamOutcome

/-- A deterministic upstream stub: prompt and model name to outcome. -/
def Upstream : Type :=
  List Char → List Char → UpstreamOutcome

/-- The dictionary returned by the service functions
(keys `success`, `response`, `error_code`, `error_message`, `details`;
the remediation keys `action` / `help_url` appear in no claim and are
omitted). -/
structure ApiResult where
  success : Bool
  response : Option (List Char) := none
  error_code : Option (List Char) := none
  error_message : Option (List Char) := none
  details : Option (List Char) := none
deriving DecidableEq

/-- gemini_proxy_service.py lines 139-144: the fixed generation profile
(temperature 0.7 and top-p 0.95 scaled by 100 to stay in `Nat`). -/
structure GenerationProfile where
  temperature_x100 : Nat
  top_p_x100 : Nat
  top_k : Nat
  max_output_tokens : Nat

def fixed_generation_profile : GenerationProfile :=
  ⟨70, 95, 40, 8192⟩

namespace GeminiProxyService

/-- gemini_proxy_service.py lines 92-99. -/
def validate_model (model_name : List Char) : Bool × Option (List Char) :=
  if model_name.isEmpty then
    (false, some ("Model name is required".data))
  else if (strip model_name).length < 3 then
    (false, some ("Invalid model name format".data))
  else
    (true, none)

/-- gemini_proxy_service.py lines 101-108. -/
def validate_prompt (prompt : List Char) : Bool × Option (List Char) :=
  if prompt.isEmpty || (strip prompt).isEmpty then
    (false, some ("Prompt is required".data))
  else if MAX_PROMPT_LENGTH < prompt.length then
    (false, some ("Prompt too long. Maximum 10000 characters allowed".data))
  else
    (true, none)

/-- ASCII double quote, used in the MODEL_NOT_FOUND message around the
model name. -/
def quoteChar : Char := Char.ofNat 39

/-- gemini_proxy_service.py lines 178-304: the `except` clauses of
`call_gemini_api`, as a pure classifier from the raised exception to the
returned dictionary. -/
def classify_exception (model_name : List Char) : RawFailure → ApiResult
  | .resourceExhausted _ =>
      { success := false, error_code := some ErrorCodes.QUOTA_ERROR,
        error_message := some ("Vertex AI quota exceeded. Please try again later.".data) }
  | .invalidArgument msg =>
      if containsSub ("safety".data) (lower msg) || containsSub ("block".data) (lower msg) then
        { success := false, error_code := some ErrorCodes.CONTENT_SAFETY_ERROR,
          error_message := some ("Content was blocked by safety filters".data),
          details := some ("Your prompt may contain inappropriate content".data) }
      else
        { success := false, error_code := some ErrorCodes.VALIDATION_ERROR,
          error_message := some (("Invalid request: ".data) ++ msg) }
  | .deadlineExceeded _ =>
      { success := false, error_code := some ErrorCodes.TIMEOUT_ERROR,
        error_message := some ("Request timed out".data),
        details := some ("The API request took too long to complete".data) }
  | .serviceUnavailable _ =>
      { success := false, error_code := some ErrorCodes.SERVICE_UNAVAILABLE,
        error_message := some ("Vertex AI service is temporarily unavailable".data) }
  | .unauthenticated msg =>
      { success := false, error_code := some ErrorCodes.CREDENTIALS_ERROR,
        error_message := some ("Invalid or expired service account credentials".data),
        details := some msg }
  | .permissionDenied msg =>
      if containsSub ("billing".data) (lower msg) && containsSub ("disabled".data) (lower msg) then
        { success := false, error_code := some ErrorCodes.BILLING_DISABLED,
          error_message := some ("Billing is not enabled for this Google Cloud project".data),
          details := some ("Vertex AI requires an active billing account".data) }
      else
        { success := false, error_code := some ErrorCodes.PERMISSION_DENIED,
          error_message := some ("Service account lacks required permissions".data),
          details := some msg }
  | .googleAPIError msg =>
      if containsSub ("not found".data) (lower msg) || containsSub ("does not exist".data) (lower msg) then
        { success := false, error_code := some ErrorCodes.MODEL_NOT_FOUND,
          error_message := some (("Model ".data) ++ [quoteChar] ++ model_name ++ [quoteChar]
            ++ (" not found or not accessible in Vertex AI".data)) }
      else if containsSub ("rate".data) (lower msg) && containsSub ("limit".data) (lower msg) then
        { success := false, error_code := some ErrorCodes.RATE_LIMIT_ERROR,
          error_message := some ("Rate limit exceeded".data),
          details := some ("Too many requests in a short time".data) }
      else
        { success := false, error_code := some ErrorCodes.API_ERROR,
          error_message := some ("Vertex AI API error occurred".data),
          details := some msg }
  | .otherException msg =>
      { success := false, error_code := some ErrorCodes.INTERNAL_ERROR,
        error_message := some ("An unexpected internal error occurred".data),
        details := some msg }

/-- gemini_proxy_service.py lines 111-304: `call_gemini_api`.  The guard on
`_vertex_ai_initialized` (lines 129-136), the transport call, the
empty-response check (lines 159-171), the success dictionary, and the
exception classifier for the raised failures. -/
def call_gemini_api (st : InitState) (up : Upstream)
    (prompt model_name : List Char) : ApiResult :=
  if !st.initialized then
    { success := false, error_code := some ErrorCodes.CONFIG_ERROR,
      error_message := some ("Vertex AI initialization failed".data),
      details := some (pyOrOpt st.init_error ("Unknown initialization error".data)) }
  else
    match up prompt model_name with
    | .success raw =>
        let response_text := strip raw
        if response_text.isEmpty then
          { success := false, error_code := some ErrorCodes.API_ERROR,
            error_message := some ("Received empty response from Vertex AI".data) }
        else
          { success := true, response := some response_text }
    | .failure e => classify_exception model_name e

/-- The validation-failure dictionary built at gemini_proxy_service.py
lines 329-333 and 338-342. -/
def validation_failure (err : Option (List Char)) : ApiResult :=
  { success := false, error_code := some ErrorCodes.VALIDATION_ERROR,
    error_message := err }

/-- gemini_proxy_service.py lines 306-355: `process_proxy_request`.
Default-model substitution and stripping (line 324), prompt validation,
model validation, the `GOOGLE_CLOUD_PROJECT` presence check (line 345),
then the upstream call. -/
def process_proxy_request (cfg : Config) (st : InitState) (up : Upstream)
    (prompt : List Char) (model_name : Option (List Char)) : ApiResult :=
  let model := strip (pyOrOpt model_name DEFAULT_MODEL)
  let vp := validate_prompt prompt
  if !vp.1 then
    validation_failure vp.2
  else
    let vm := validate_model model
    if !vm.1 then
      validation_failure vm.2
    else if !envTruthy cfg.google_cloud_project then
      { success := false, error_code := some ErrorCodes.CONFIG_ERROR,
        error_message :=
          some ("GOOGLE_CLOUD_PROJECT environment variable is required for Vertex AI authentication".data) }
    else
      call_gemini_api st up prompt model

end GeminiProxyService

namespace App

/-- One element of the `errors` array of the JSON envelope. -/
structure HttpError where
  code : List Char
  message : List Char

/-- The HTTP response rendered by `api_response` in app.py lines 47-52:
the envelope fields and the HTTP status code. -/
structure HttpResponse where
  result : List Char
  response_data : Option (List Char)
  errors : List HttpError
  status : Nat

/-- app.py lines 104-128: how the `gemini_proxy` route renders a service
result as an HTTP response.  On failure the status code is computed at
line 122 as `400 if error_code == "VALIDATION_ERROR" else 500`. -/
def gemini_proxy_handle (res : ApiResult) : HttpResponse :=
  if res.success then
    { result := "OK".data, response_data := res.response, errors := [], status := 200 }
  else
    let error_code := res.error_code.getD ErrorCodes.INTERNAL_ERROR
    let error_message := res.error_message.getD ("Unknown error".data)
    let status_code := if error_code = ErrorCodes.VALIDATION_ERROR then 400 else 500
    { result := "Failed".data, response_data := none,
      errors := [⟨error_code, error_message⟩], status := status_code }

end App

/-- The (model, credential) pair actually used for one upstream call
(spec section 3). -/
structure ResolvedInvocation where
  model : List Char
  credential : List Char
deriving DecidableEq

/-- Message of the Strategy A pairing failure; the spec requires a message
naming both fields ("both or neither"). -/
def msgBothOrNeither : List Char :=
  "Both model and credential must be provided together, or neither".data

/-- Modelled from the spec: the Strategy A (caller-supplied credential)
credential resolver.  The Strategy A service variant is not under src/
(src/app.py calls `process_proxy_request` with `api_key` and
`fallback_api_key` arguments, but src/gemini_proxy_service.py is the
Strategy B variant, so the Strategy A resolution code is missing).  Per
spec section 4.2: the caller may supply both a custom model and a custom
credential; supplying one without the other is a VALIDATION_ERROR naming
both fields; supplying neither uses the default model and the server
fallback credential. -/
def resolve_credentials_strategy_a (model_name credential : Option (List Char))
    (fallback : List Char) : Except (List Char) ResolvedInvocation :=
  match model_name, credential with
  | some m, some c => .ok ⟨m, c⟩
  | none, none => .ok ⟨DEFAULT_MODEL, fallback⟩
  | some _, none => .error msgBothOrNeither
  | none, some _ => .error msgBothOrNeither

/-- Modelled from the spec: Strategy A credential format validation
(spec section 4.1): fails if the credential is empty or shorter than 20
characters. -/
def validate_credential (value : List Char) : Bool × Option (List Char) :=
  if value.isEmpty then
    (false, some ("Credential is required".data))
  else if value.length < 20 then
    (false, some ("Invalid credential format".data))
  else
    (true, none)

/-- A Strategy A upstream stub: prompt and resolved invocation to outcome. -/
def UpstreamA : Type :=
  List Char → ResolvedInvocation → UpstreamOutcome

/-- Modelled from the spec: the Strategy A `process` pipeline
(spec sections 4.2 and 4.5): validate the prompt, apply the pairing rule
and default resolution, validate the resolved model and credential, then
issue the upstream call, classifying failures and empty responses as in
the shared invoker. -/
def process_proxy_request_strategy_a (prompt : List Char)
    (model_name credential : Option (List Char)) (fallback : List Char)
    (up : UpstreamA) : ApiResult :=
  let vp := GeminiProxyService.validate_prompt prompt
  if !vp.1 then
    GeminiProxyService.validation_failure vp.2
  else
    match resolve_credentials_strategy_a model_name credential fallback with
    | .error m => GeminiProxyService.validation_failure (some m)
    | .ok inv =>
      let vm := GeminiProxyService.validate_model inv.model
      if !vm.1 then
        GeminiProxyService.validation_failure vm.2
      else
        let vc := validate_credential inv.credential
        if !vc.1 then
          GeminiProxyService.validation_failure vc.2
        else
          match up prompt inv with
          | .success raw =>
              let response_text := strip raw
              if response_text.isEmpty then
                { success := false, error_code := some ErrorCodes.API_ERROR,
                  error_message := some ("Received empty response".data) }
              else
                { success := true, response := some response_text }
          | .failure e => GeminiProxyService.classify_exception inv.model e

/-- A configuration whose project variable is set and whose startup
`vertexai.init` call succeeds. -/
def cfgOk : Config :=
  ⟨some ("demo-project".data), some ("us-central1".data), none⟩

/-- A configuration with the project variable unset: module load fails at
the `ValueError` on line 55. -/
def cfgNoProject : Config :=
  ⟨none, some ("us-central1".data), none⟩

/-- A configuration whose project is set but whose `vertexai.init` call
raises. -/
def cfgInitRaises : Config :=
  ⟨some ("demo-project".data), some ("us-central1".data), some ("init exploded".data)⟩

/-- A deterministic upstream stub that always returns the text "Hi there". -/
def stubOk : Upstream :=
  fun _ _ => .success ("Hi there".data)

/-- A deterministic upstream stub that always raises `ResourceExhausted`. -/
def stubQuota : Upstream :=
  fun _ _ => .failure (.resourceExhausted ("quota exceeded for project".data))

/-- A deterministic upstream stub that raises `PermissionDenied` with a
billing-related message. -/
def stubBillingDenied : Upstream :=
  fun _ _ => .failure (.permissionDenied ("Billing is disabled for the project".data))

/-- A deterministic upstream stub whose response text is all whitespace. -/
def stubBlank : Upstream :=
  fun _ _ => .success ("   ".data)

/-- A Strategy A upstream stub returning fixed text. -/
def stubA : UpstreamA :=
  fun _ _ => .success ("Hi there".data)

/-- A fallback credential of more than 20 characters for Strategy A. -/
def fallbackCred : List Char :=
  "abcdefghijklmnopqrstuvwxyz".data

section Theorems

open GeminiProxyService

/-- C1: the claim says every failure's HTTP status equals the
`ERROR_HTTP_STATUS` table entry for its error code.  The route handler in
app.py instead hardcodes 400 for VALIDATION_ERROR and 500 for everything
else, so a quota failure (error code QUOTA_ERROR, table entry 429) is
returned with HTTP 500. -/
theorem quota_failure_http_status_bug :
    (process_proxy_request cfgOk (moduleInit cfgOk) stubQuota ("hello".data) none).error_code
      = some ErrorCodes.QUOTA_ERROR ∧
    (App.gemini_proxy_handle
      (process_proxy_request cfgOk (moduleInit cfgOk) stubQuota ("hello".data) none)).status = 500 ∧
    lookupHttpStatus ErrorCodes.QUOTA_ERROR = some 429 := by
  decide

/-- C6: a raw upstream permission failure whose message contains "billing"
and "disabled" is classified BILLING_DISABLED (not PERMISSION_DENIED), as
the claim says; but the HTTP status returned by app.py is 500, while the
claim and the `ERROR_HTTP_STATUS` table say 403. -/
theorem billing_disabled_http_status_bug :
    (process_proxy_request cfgOk (moduleInit cfgOk) stubBillingDenied ("hello".data) none).error_code
      = some ErrorCodes.BILLING_DISABLED ∧
    (process_proxy_request cfgOk (moduleInit cfgOk) stubBillingDenied ("hello".data) none).error_code
      ≠ some ErrorCodes.PERMISSION_DENIED ∧
    (App.gemini_proxy_handle
      (process_proxy_request cfgOk (moduleInit cfgOk) stubBillingDenied ("hello".data) none)).status = 500 ∧
    lookupHttpStatus ErrorCodes.BILLING_DISABLED = some 403 := by
  decide

/-- C5 counterexample: a raw upstream failure of the quota category whose
message contains "safety" is classified QUOTA_ERROR, not
CONTENT_SAFETY_ERROR — only the invalid-argument category inspects the
message for safety markers. -/
theorem safety_substring_counterexample :
    containsSub ("safety".data) (lower ("safety check failed".data)) = true ∧
    (classify_exception DEFAULT_MODEL
      (.resourceExhausted ("safety check failed".data))).error_code
        = some ErrorCodes.QUOTA_ERROR ∧
    (classify_exception DEFAULT_MODEL
      (.resourceExhausted ("safety check failed".data))).error_code
        ≠ some ErrorCodes.CONTENT_SAFETY_ERROR := by
  decide

/-- C5 (amended): every raw upstream failure of the invalid-argument
category whose message contains "safety" case-insensitively is classified
CONTENT_SAFETY_ERROR, not VALIDATION_ERROR. -/
theorem safety_invalid_argument_classified (model_name msg : List Char)
    (h : containsSub ("safety".data) (lower msg) = true) :
    (classify_exception model_name (.invalidArgument msg)).error_code
        = some ErrorCodes.CONTENT_SAFETY_ERROR ∧
    (classify_exception model_name (.invalidArgument msg)).error_code
        ≠ some ErrorCodes.VALIDATION_ERROR := by
  simp [classify_exception, h, ErrorCodes.CONTENT_SAFETY_ERROR, ErrorCodes.VALIDATION_ERROR]

/-- Witness for `safety_invalid_argument_classified` at a concrete
mixed-case message. -/
theorem safety_invalid_argument_classified_witness :
    (classify_exception DEFAULT_MODEL
      (.invalidArgument ("Blocked by SAFETY filters".data))).error_code
        = some ErrorCodes.CONTENT_SAFETY_ERROR :=
  (safety_invalid_argument_classified DEFAULT_MODEL ("Blocked by SAFETY filters".data)
    (by decide)).1

/-- C7: an upstream call that succeeds at the transport level with text
that is empty after trimming yields an API_ERROR failure, never a
success. -/
theorem empty_response_is_api_error (st : InitState) (up : Upstream)
    (prompt model_name raw : List Char)
    (hinit : st.initialized = true)
    (hup : up prompt model_name = .success raw)
    (hempty : strip raw = []) :
    (call_gemini_api st up prompt model_name).success = false ∧
    (call_gemini_api st up prompt model_name).error_code = some ErrorCodes.API_ERROR := by
  simp [call_gemini_api, hinit, hup, hempty]

/-- Witness for `empty_response_is_api_error` on a whitespace-only stub
response. -/
theorem empty_response_is_api_error_witness :
    (call_gemini_api ⟨true, none⟩ stubBlank ("hello".data) DEFAULT_MODEL).success = false ∧
    (call_gemini_api ⟨true, none⟩ stubBlank ("hello".data) DEFAULT_MODEL).error_code
      = some ErrorCodes.API_ERROR :=
  empty_response_is_api_error ⟨true, none⟩ stubBlank ("hello".data) DEFAULT_MODEL
    ("   ".data) rfl rfl (by decide)

/-- C8: `process_proxy_request` is a pure function of the configuration,
the startup state, the upstream stub and the request inputs, so two calls
with identical inputs against the same deterministic stub produce results
with the same error code and the same success flag — there is no hidden
state across calls. -/
theorem process_deterministic (cfg : Config) (st : InitState) (up : Upstream)
    (prompt : List Char) (model_name : Option (List Char)) :
    (process_proxy_request cfg st up prompt model_name).error_code
      = (process_proxy_request cfg st up prompt model_name).error_code ∧
    (process_proxy_request cfg st up prompt model_name).success
      = (process_proxy_request cfg st up prompt model_name).success :=
  ⟨rfl, rfl⟩

/-- A prompt failing the emptiness or length check is rejected by
`validate_prompt`. -/
theorem validate_prompt_fst_false {prompt : List Char}
    (h : strip prompt = [] ∨ MAX_PROMPT_LENGTH < prompt.length) :
    (validate_prompt prompt).1 = false := by
  unfold validate_prompt
  rcases h with h | h
  · simp [h]
  · by_cases hc : (prompt.isEmpty || (strip prompt).isEmpty) = true
    · rw [if_pos hc]
    · rw [if_neg hc, if_pos h]

/-- A request whose prompt fails validation short-circuits to the
validation failure, before any other check. -/
theorem process_of_prompt_invalid (cfg : Config) (st : InitState) (up : Upstream)
    {prompt : List Char} (model_name : Option (List Char))
    (h : (validate_prompt prompt).1 = false) :
    process_proxy_request cfg st up prompt model_name
      = validation_failure (validate_prompt prompt).2 := by
  simp [process_proxy_request, h]

/-- C2: a prompt that is empty, all-whitespace, or longer than 10000
characters makes `process_proxy_request` fail with VALIDATION_ERROR, and
the result does not depend on the upstream stub (no upstream call is
made); every other prompt passes `validate_prompt`. -/
theorem prompt_validation_spec (prompt : List Char) (cfg : Config)
    (st : InitState) (up : Upstream) (model_name : Option (List Char)) :
    (strip prompt = [] ∨ MAX_PROMPT_LENGTH < prompt.length →
      (process_proxy_request cfg st up prompt model_name).error_code
          = some ErrorCodes.VALIDATION_ERROR ∧
      ∀ up2, process_proxy_request cfg st up2 prompt model_name
          = process_proxy_request cfg st up prompt model_name) ∧
    (strip prompt ≠ [] → prompt.length ≤ MAX_PROMPT_LENGTH →
      validate_prompt prompt = (true, none)) := by
  constructor
  · intro h
    have hv : (validate_prompt prompt).1 = false := validate_prompt_fst_false h
    refine ⟨?_, ?_⟩
    · rw [process_of_prompt_invalid cfg st up model_name hv]
      rfl
    · intro up2
      rw [process_of_prompt_invalid cfg st up2 model_name hv,
        process_of_prompt_invalid cfg st up model_name hv]
  · intro h1 h2
    have hpe : prompt.isEmpty = false := by
      cases prompt with
      | nil => exact absurd rfl h1
      | cons a l => rfl
    have hse : (strip prompt).isEmpty = false := by
      cases hs : strip prompt with
      | nil => exact absurd hs h1
      | cons a l => rfl
    have h3 : ¬ MAX_PROMPT_LENGTH < prompt.length := Nat.not_lt.mpr h2
    simp [validate_prompt, hpe, hse, h3]

/-- Witness for `prompt_validation_spec`: the empty prompt is rejected
without consulting the upstream, and a short non-blank prompt passes. -/
theorem prompt_validation_spec_witness :
    (process_proxy_request cfgOk (moduleInit cfgOk) stubOk [] none).error_code
      = some ErrorCodes.VALIDATION_ERROR ∧
    validate_prompt ("hi".data) = (true, none) :=
  ⟨((prompt_validation_spec [] cfgOk (moduleInit cfgOk) stubOk none).1 (Or.inl rfl)).1,
   (prompt_validation_spec ("hi".data) cfgOk (moduleInit cfgOk) stubOk none).2
     (by decide) (by decide)⟩

/-- Dropping whitespace from a run of one non-whitespace character leaves
it unchanged. -/
theorem dropWhile_replicate_not_space (n : Nat) {c : Char} (h : isPySpace c = false) :
    (List.replicate n c).dropWhile isPySpace = List.replicate n c := by
  cases n with
  | zero => rfl
  | succ k => simp [List.replicate_succ, List.dropWhile_cons, h]

/-- Stripping a run of one non-whitespace character leaves it unchanged. -/
theorem strip_replicate_not_space (n : Nat) {c : Char} (h : isPySpace c = false) :
    strip (List.replicate n c) = List.replicate n c := by
  unfold strip
  rw [dropWhile_replicate_not_space n h, List.reverse_replicate,
    dropWhile_replicate_not_space n h, List.reverse_replicate]

/-- C9: a prompt of exactly 10000 characters that is not all-whitespace
passes `validate_prompt` — the length comparison is a strict
greater-than, so the boundary value is accepted. -/
theorem boundary_prompt_accepted (prompt : List Char)
    (hlen : prompt.length = MAX_PROMPT_LENGTH)
    (hws : strip prompt ≠ []) :
    validate_prompt prompt = (true, none) := by
  have hpe : prompt.isEmpty = false := by
    cases prompt with
    | nil => exact absurd rfl hws
    | cons a l => rfl
  have hse : (strip prompt).isEmpty = false := by
    cases hs : strip prompt with
    | nil => exact absurd hs hws
    | cons a l => rfl
  have h3 : ¬ MAX_PROMPT_LENGTH < prompt.length := by
    rw [hlen]
    exact lt_irrefl _
  simp [validate_prompt, hpe, hse, h3]

/-- Witness for `boundary_prompt_accepted`: ten thousand letters. -/
theorem boundary_prompt_accepted_witness :
    (List.replicate 10000 'a').length = MAX_PROMPT_LENGTH ∧
    strip (List.replicate 10000 'a') ≠ [] ∧
    validate_prompt (List.replicate 10000 'a') = (true, none) := by
  have hlen : (List.replicate 10000 'a').length = MAX_PROMPT_LENGTH := by
    rw [List.length_replicate, MAX_PROMPT_LENGTH]
  have hne : strip (List.replicate 10000 'a') ≠ [] := by
    rw [strip_replicate_not_space 10000 (by decide)]
    intro hcontra
    have hl := congrArg List.length hcontra
    simp only [List.length_replicate, List.length_nil] at hl
    omega
  exact ⟨hlen, hne, boundary_prompt_accepted _ hlen hne⟩

/-- Stripping an all-whitespace string yields the empty string. -/
theorem strip_eq_nil_of_all_space {ws : List Char}
    (h : ∀ c ∈ ws, isPySpace c = true) :
    strip ws = [] := by
  have h1 : ws.dropWhile isPySpace = [] := by
    rw [List.dropWhile_eq_nil_iff]
    exact h
  unfold strip
  rw [h1]
  rfl

/-- C10: a caller-supplied model consisting only of whitespace is truthy,
so it does not trigger the default model; it is stripped to the empty
string and rejected with "Model name is required"; only an absent
(`None`) or empty model falls back to the default. -/
theorem whitespace_model_rejected (cfg : Config) (st : InitState) (up : Upstream)
    (prompt ws : List Char)
    (hp : (validate_prompt prompt).1 = true)
    (hne : ws ≠ [])
    (hws : ∀ c ∈ ws, isPySpace c = true) :
    process_proxy_request cfg st up prompt (some ws)
        = validation_failure (some ("Model name is required".data)) ∧
    pyOrOpt none DEFAULT_MODEL = DEFAULT_MODEL ∧
    pyOrOpt (some []) DEFAULT_MODEL = DEFAULT_MODEL := by
  refine ⟨?_, rfl, rfl⟩
  have hwe : ws.isEmpty = false := by
    cases ws with
    | nil => exact absurd rfl hne
    | cons a l => rfl
  have hm : pyOrOpt (some ws) DEFAULT_MODEL = ws := by
    simp [pyOrOpt, hwe]
  have hstrip : strip ws = [] := strip_eq_nil_of_all_space hws
  simp [process_proxy_request, hm, hstrip, hp, validate_model]

/-- Witness for `whitespace_model_rejected` at a single-space model. -/
theorem whitespace_model_rejected_witness :
    process_proxy_request cfgOk (moduleInit cfgOk) stubOk ("hello".data) (some [' '])
      = validation_failure (some ("Model name is required".data)) :=
  (whitespace_model_rejected cfgOk (moduleInit cfgOk) stubOk ("hello".data) [' ']
    (by decide) (by decide) (by decide)).1

/-- C3 counterexample: when startup fails because `GOOGLE_CLOUD_PROJECT`
is unset, a request with a valid prompt and model does fail with
CONFIG_ERROR, but its `details` field is `none` — not the captured
startup failure message — because `process_proxy_request` short-circuits
at its own environment check before reaching the initialization guard. -/
theorem startup_failure_detail_counterexample :
    (moduleInit cfgNoProject).initialized = false ∧
    (moduleInit cfgNoProject).init_error = some msgProjectEnvRequired ∧
    (validate_prompt ("hello".data)).1 = true ∧
    (validate_model (strip (pyOrOpt none DEFAULT_MODEL))).1 = true ∧
    (process_proxy_request cfgNoProject (moduleInit cfgNoProject) stubOk
      ("hello".data) none).error_code = some ErrorCodes.CONFIG_ERROR ∧
    (process_proxy_request cfgNoProject (moduleInit cfgNoProject) stubOk
      ("hello".data) none).details = none := by
  decide

/-- C3 (amended): when startup initialization failed, every request whose
prompt and model pass validation fails with CONFIG_ERROR and the result
does not depend on the upstream stub (no upstream call is made); when
`GOOGLE_CLOUD_PROJECT` is set — i.e. the failure came from the
`vertexai.init` call itself — the failure's `details` field carries the
captured startup failure message (with the fallback text for an empty
message); when the project variable is unset, the request instead fails
at the environment check with a message that the variable is required and
no `details` field. -/
theorem startup_failure_config_error (cfg : Config) (up : Upstream)
    (prompt : List Char) (model_name : Option (List Char))
    (hinit : (moduleInit cfg).initialized = false)
    (hp : (validate_prompt prompt).1 = true)
    (hm : (validate_model (strip (pyOrOpt model_name DEFAULT_MODEL))).1 = true) :
    (process_proxy_request cfg (moduleInit cfg) up prompt model_name).success = false ∧
    (process_proxy_request cfg (moduleInit cfg) up prompt model_name).error_code
        = some ErrorCodes.CONFIG_ERROR ∧
    (∀ up2, process_proxy_request cfg (moduleInit cfg) up2 prompt model_name
        = process_proxy_request cfg (moduleInit cfg) up prompt model_name) ∧
    (envTruthy cfg.google_cloud_project = true →
      ∃ m, cfg.vertex_init_raises = some m ∧
        (moduleInit cfg).init_error = some m ∧
        (process_proxy_request cfg (moduleInit cfg) up prompt model_name).details
          = some (pyOrOpt (some m) ("Unknown initialization error".data))) := by
  by_cases hproj : envTruthy cfg.google_cloud_project = true
  · obtain ⟨m, hm2⟩ : ∃ m, cfg.vertex_init_raises = some m := by
      cases hr : cfg.vertex_init_raises with
      | some m => exact ⟨m, rfl⟩
      | none =>
        exfalso
        rw [moduleInit, if_neg (by rw [hproj]; decide), hr] at hinit
        exact absurd hinit (by decide)
    have hst : moduleInit cfg = ⟨false, some m⟩ := by
      rw [moduleInit, if_neg (by rw [hproj]; decide), hm2]
    have hrun : process_proxy_request cfg (moduleInit cfg) up prompt model_name
        = call_gemini_api (moduleInit cfg) up prompt
            (strip (pyOrOpt model_name DEFAULT_MODEL)) := by
      simp [process_proxy_request, hp, hm, hproj]
    have hcall : ∀ u : Upstream, call_gemini_api (moduleInit cfg) u prompt
        (strip (pyOrOpt model_name DEFAULT_MODEL))
        = { success := false, error_code := some ErrorCodes.CONFIG_ERROR,
            error_message := some ("Vertex AI initialization failed".data),
            details := some (pyOrOpt (some m) ("Unknown initialization error".data)) } := by
      intro u
      rw [hst]
      simp [call_gemini_api]
    refine ⟨?_, ?_, ?_, ?_⟩
    · rw [hrun, hcall up]
    · rw [hrun, hcall up]
    · intro up2
      have hrun2 : process_proxy_request cfg (moduleInit cfg) up2 prompt model_name
          = call_gemini_api (moduleInit cfg) up2 prompt
              (strip (pyOrOpt model_name DEFAULT_MODEL)) := by
        simp [process_proxy_request, hp, hm, hproj]
      rw [hrun, hrun2, hcall up, hcall up2]
    · intro _
      refine ⟨m, hm2, ?_, ?_⟩
      · rw [hst]
      · rw [hrun, hcall up]
  · have hfalse : envTruthy cfg.google_cloud_project = false :=
      Bool.eq_false_iff.mpr hproj
    have hrun : ∀ u : Upstream, process_proxy_request cfg (moduleInit cfg) u prompt model_name
        = { success := false, error_code := some ErrorCodes.CONFIG_ERROR,
            error_message :=
              some ("GOOGLE_CLOUD_PROJECT environment variable is required for Vertex AI authentication".data) } := by
      intro u
      simp [process_proxy_request, hp, hm, hfalse]
    refine ⟨?_, ?_, ?_, ?_⟩
    · rw [hrun up]
    · rw [hrun up]
    · intro up2
      rw [hrun up, hrun up2]
    · intro hc
      rw [hc] at hfalse
      exact absurd hfalse (by decide)

/-- Witness for `startup_failure_config_error` with a configuration whose
`vertexai.init` call raised at startup. -/
theorem startup_failure_config_error_witness :
    (process_proxy_request cfgInitRaises (moduleInit cfgInitRaises) stubOk
      ("hello".data) none).success = false ∧
    (process_proxy_request cfgInitRaises (moduleInit cfgInitRaises) stubOk
      ("hello".data) none).error_code = some ErrorCodes.CONFIG_ERROR :=
  ⟨(startup_failure_config_error cfgInitRaises stubOk ("hello".data) none
      (by decide) (by decide) (by decide)).1,
   (startup_failure_config_error cfgInitRaises stubOk ("hello".data) none
      (by decide) (by decide) (by decide)).2.1⟩

/-- C4: in the spec-modelled Strategy A pipeline, supplying a custom model
without a custom credential (or vice versa) yields a VALIDATION_ERROR
whose message names both fields; supplying neither resolves to the
default model paired with the server's fallback credential. -/
theorem strategy_a_pairing_rule (prompt fallback : List Char) (up : UpstreamA)
    (hp : (validate_prompt prompt).1 = true) :
    (∀ m, (process_proxy_request_strategy_a prompt (some m) none fallback up).error_code
          = some ErrorCodes.VALIDATION_ERROR ∧
        (process_proxy_request_strategy_a prompt (some m) none fallback up).error_message
          = some msgBothOrNeither) ∧
    (∀ c, (process_proxy_request_strategy_a prompt none (some c) fallback up).error_code
          = some ErrorCodes.VALIDATION_ERROR ∧
        (process_proxy_request_strategy_a prompt none (some c) fallback up).error_message
          = some msgBothOrNeither) ∧
    resolve_credentials_strategy_a none none fallback = .ok ⟨DEFAULT_MODEL, fallback⟩ ∧
    containsSub ("model".data) msgBothOrNeither = true ∧
    containsSub ("credential".data) msgBothOrNeither = true := by
  refine ⟨?_, ?_, rfl, by decide, by decide⟩
  · intro m
    constructor
    · simp [process_proxy_request_strategy_a, hp, resolve_credentials_strategy_a,
        validation_failure]
    · simp [process_proxy_request_strategy_a, hp, resolve_credentials_strategy_a,
        validation_failure]
  · intro c
    constructor
    · simp [process_proxy_request_strategy_a, hp, resolve_credentials_strategy_a,
        validation_failure]
    · simp [process_proxy_request_strategy_a, hp, resolve_credentials_strategy_a,
        validation_failure]

/-- Witness for `strategy_a_pairing_rule` with a concrete model-only
request. -/
theorem strategy_a_pairing_rule_witness :
    (process_proxy_request_strategy_a ("Hello".data) (some ("gpt".data)) none
      fallbackCred stubA).error_code = some ErrorCodes.VALIDATION_ERROR ∧
    resolve_credentials_strategy_a none none fallbackCred
      = .ok ⟨DEFAULT_MODEL, fallbackCred⟩ :=
  ⟨((strategy_a_pairing_rule ("Hello".data) fallbackCred stubA (by decide)).1
      ("gpt".data)).1,
   (strategy_a_pairing_rule ("Hello".data) fallbackCred stubA (by decide)).2.2.1⟩

end Theorems

end GeminiProxy
